import Mathlib

/-!
Verification of the chroma repository's maintenance CLI and validation gate.

The `vacuum` and `run` commands are embedded from src/chromadb/cli/cli.py as
pure functions from an environment (the outcomes of the filesystem checks,
the user's confirmation answer, whether each store operation raises, and the
measured directory sizes) to a trace of observable events plus an exit
outcome.  The validation-gate functions `validate_ids` and
`validate_embeddings` are not present under src/, so they are modelled from
the spec, with the error messages pinned by the tests in
src/chromadb/test/api/test_validations.py.
-/

namespace Chroma

/-- Observable events of one invocation of the `vacuum` CLI command
(src/chromadb/cli/cli.py, function `vacuum`). An operation event marks the
invocation of the corresponding store call. -/
inductive Event where
  | printPathNotExist
  | printNotChromaDir
  | promptConfirm
  | printCancelled
  | purgeLog
  | printPurgeError
  | vacuumDb
  | setConfig (automaticallyPrune : Bool)
  | printVacuumError
  | printComplete (sizeDiff : Int) (pctNum : Int) (pctDen : Nat)
  deriving DecidableEq, Repr

/-- How the process ends: `typer.Exit(code)` / normal return (code 0), or an
uncaught `ZeroDivisionError` escaping the final report line. -/
inductive Outcome where
  | exit (code : Nat)
  | zeroDivisionError
  deriving DecidableEq, Repr

/-- The environment a `vacuum` invocation runs against: results of the two
`os.path.exists` checks, the `--force` flag, the answer `typer.confirm`
would return, whether each store operation raises, and the directory sizes
measured before and after maintenance (`get_directory_size` is an external
helper, out of the spec's scope, so its results are parameters). -/
structure VacuumEnv where
  pathExists : Bool
  sqliteFileExists : Bool
  force : Bool
  userConfirms : Bool
  purgeRaises : Bool
  vacuumRaises : Bool
  setConfigRaises : Bool
  sizeBefore : Nat
  sizeAfter : Nat
  deriving DecidableEq, Repr

/-- Embedding of the `vacuum` command body (src/chromadb/cli/cli.py lines
100-160).  Mirrors the source control flow: existence checks, confirmation
prompt, `purge_log` guarded by its own try/except, then `vacuum` +
`set_config` guarded by a second try/except, then the final report whose
percentage is `size_diff * 100 / directory_size_before_vacuum` — a division
that raises `ZeroDivisionError` when the before-size is `0`. -/
def vacuum (env : VacuumEnv) : List Event × Outcome :=
  if !env.pathExists then
    ([.printPathNotExist], .exit 1)
  else if !env.sqliteFileExists then
    ([.printNotChromaDir], .exit 1)
  else if !env.force && !env.userConfirms then
    ([.promptConfirm, .printCancelled], .exit 0)
  else
    let pre : List Event := if env.force then [] else [.promptConfirm]
    if env.purgeRaises then
      (pre ++ [.purgeLog, .printPurgeError], .exit 1)
    else if env.vacuumRaises then
      (pre ++ [.purgeLog, .vacuumDb, .printVacuumError], .exit 1)
    else if env.setConfigRaises then
      (pre ++ [.purgeLog, .vacuumDb, .setConfig true, .printVacuumError], .exit 1)
    else
      let sizeDiff : Int := (env.sizeBefore : Int) - (env.sizeAfter : Int)
      if env.sizeBefore = 0 then
        (pre ++ [.purgeLog, .vacuumDb, .setConfig true], .zeroDivisionError)
      else
        (pre ++ [.purgeLog, .vacuumDb, .setConfig true,
                 .printComplete sizeDiff (sizeDiff * 100) env.sizeBefore], .exit 0)

/-- Observable events of one invocation of the `run` CLI command
(src/chromadb/cli/cli.py, function `run`): assignments to `os.environ` and
the `uvicorn.run` call that starts the network front end. -/
inductive REvent where
  | setEnvVar (key value : String)
  | startServer (host : String) (port : Nat)
  deriving DecidableEq, Repr

/-- Embedding of the `run` command body (src/chromadb/cli/cli.py lines
36-89): after the banner prints it sets the four environment variables
`IS_PERSISTENT`, `PERSIST_DIRECTORY`, `CHROMA_SERVER_NOFILE` and
`CHROMA_CLI`, then, unless the hidden `test` flag is set, starts uvicorn
bound to host and port. -/
def run (path host : String) (port : Nat) (test : Bool) : List REvent :=
  [.setEnvVar "IS_PERSISTENT" "True",
   .setEnvVar "PERSIST_DIRECTORY" path,
   .setEnvVar "CHROMA_SERVER_NOFILE" "65535",
   .setEnvVar "CHROMA_CLI" "True"]
  ++ (if test then [] else [.startServer host port])

/-- Replay a trace of `run` events over a process environment map. -/
def applyEvents : List REvent → (String → Option String) → (String → Option String)
  | [], env => env
  | .setEnvVar k v :: rest, env =>
      applyEvents rest (fun x => if x = k then some v else env x)
  | .startServer _ _ :: rest, env => applyEvents rest env

/-- A Python runtime value, as far as the validation gate inspects one:
`None`, a boolean, an integer, a float (its numeric payload modelled as a
rational, since the gate only classifies types and never computes with it),
a string, or a list. A boolean is a distinct constructor from an integer,
mirroring that the gate tells `bool` apart from `int` even though Python
booleans are integer-representable. -/
inductive PyVal where
  | none
  | bool (b : Bool)
  | int (n : Int)
  | float (q : Rat)
  | str (s : String)
  | list (xs : List PyVal)

/-- Validation-gate failures, by kind, with the user-facing message; a
duplicate error also carries the reported duplicate count. -/
inductive VError where
  | typeError (msg : String)
  | shapeError (msg : String)
  | duplicateError (msg : String) (count : Nat)
  deriving DecidableEq, Repr

/-- Extract the strings of a list of values, or `none` if some element is
not a string (the gate's per-element `isinstance(id, str)` check). -/
def strList? : List PyVal → Option (List String)
  | [] => some []
  | .str s :: rest => (strList? rest).map (fun t => s :: t)
  | _ :: _ => Option.none

/-- The duplicate-IDs message, parameterized by the reported count. -/
def dupIdsMessage (n : Nat) : String :=
  "Expected IDs to be unique, found " ++ toString n ++ " duplicated IDs"

/-- Modelled from the spec: `validate_ids` (implementation file
chromadb/api/types.py is not under src/; contract taken from spec section
4.1 and the messages pinned by src/chromadb/test/api/test_validations.py).
Fails with a TypeError-kind if the value is not a list, ShapeError-kind if
it is empty, TypeError-kind if any element is not a string, and
DuplicateError-kind if any value repeats, reporting
`len(ids) - len(set(ids))` duplicates; returns the input unchanged on
success. -/
def validate_ids (v : PyVal) : Except VError PyVal :=
  match v with
  | .list ids =>
    if ids.length = 0 then
      .error (.shapeError "Expected IDs to be a non-empty list")
    else
      match strList? ids with
      | Option.none => .error (.typeError "Expected ID to be a str")
      | Option.some ss =>
        let dup := ss.length - ss.dedup.length
        if dup = 0 then .ok v
        else .error (.duplicateError (dupIdsMessage dup) dup)
  | _ => .error (.typeError "Expected IDs to be a list")

/-- The 30-element ID list of the end-to-end test: 15 distinct IDs followed
by the same 15 again. -/
def idsTwice : List String :=
  ["id1", "id2", "id3", "id4", "id5", "id6", "id7", "id8", "id9", "id10",
   "id11", "id12", "id13", "id14", "id15"] ++
  ["id1", "id2", "id3", "id4", "id5", "id6", "id7", "id8", "id9", "id10",
   "id11", "id12", "id13", "id14", "id15"]

/-- Strict numeric classification: an `int` or a `float`, nothing else — in
particular a boolean is NOT numeric here, even though Python booleans are
integer-representable (`isinstance(True, int)` holds in Python; the gate
excludes `bool` explicitly). -/
def isNumber : PyVal → Bool
  | .int _ => true
  | .float _ => true
  | _ => false

/-- Extract the inner lists of a list of values, or `none` if some element
is not itself a list. -/
def listList? : List PyVal → Option (List (List PyVal))
  | [] => some []
  | .list e :: rest => (listList? rest).map (fun t => e :: t)
  | _ :: _ => Option.none

/-- Check each embedding in order: a ShapeError-kind on the first empty one,
a TypeError-kind on the first one holding a non-numeric element. -/
def checkEmbeddingValues : List (List PyVal) → Except VError Unit
  | [] => .ok ()
  | e :: rest =>
    if e.length = 0 then
      .error (.shapeError
        "Expected each embedding in the embeddings to be a non-empty list")
    else if e.all isNumber = false then
      .error (.typeError "Expected each value in the embedding to be a int or float")
    else checkEmbeddingValues rest

/-- Modelled from the spec: `validate_embeddings` (implementation file
chromadb/api/types.py is not under src/; contract taken from spec section
4.1 and the messages pinned by src/chromadb/test/api/test_validations.py).
Fails with a TypeError-kind unless the value is a list of lists, a
ShapeError-kind if any inner list is empty, and a TypeError-kind if any
element of an inner list is not strictly an int or a float; returns the
value unchanged on success. -/
def validate_embeddings (v : PyVal) : Except VError PyVal :=
  match v with
  | .list embs =>
    match listList? embs with
    | Option.none =>
      .error (.typeError "Expected each embedding in the embeddings to be a list")
    | Option.some es =>
      match checkEmbeddingValues es with
      | .error e => .error e
      | .ok _ => .ok v
  | _ => .error (.typeError "Expected embeddings to be a list")

/-- C1: if `purge_log()` raises (it was invoked and `purgeRaises` holds),
then `vacuum`/compaction is never invoked in that run, the pruning error is
reported, and the command exits with code 1. -/
theorem purge_failure_blocks_compaction (env : VacuumEnv)
    (hraise : env.purgeRaises = true)
    (hcalled : Event.purgeLog ∈ (vacuum env).1) :
    Event.vacuumDb ∉ (vacuum env).1 ∧
    Event.printPurgeError ∈ (vacuum env).1 ∧
    (vacuum env).2 = .exit 1 := by
  cases hp : env.pathExists <;> cases hs : env.sqliteFileExists <;>
    cases hf : env.force <;> cases hc : env.userConfirms <;>
      simp [vacuum, hp, hs, hf, hc, hraise] at hcalled ⊢

/-- Witness for C1 at a concrete environment where `purge_log` raises. -/
theorem purge_failure_blocks_compaction_witness :
    Event.vacuumDb ∉ (vacuum ⟨true, true, true, true, true, false, false, 10, 5⟩).1 ∧
    Event.printPurgeError ∈ (vacuum ⟨true, true, true, true, true, false, false, 10, 5⟩).1 ∧
    (vacuum ⟨true, true, true, true, true, false, false, 10, 5⟩).2 = .exit 1 :=
  purge_failure_blocks_compaction ⟨true, true, true, true, true, false, false, 10, 5⟩
    rfl (by decide)

/-- C2 (code bug): on a store directory measuring 0 bytes before vacuuming,
with every check passing and every maintenance operation succeeding, the
command reaches the unguarded percentage division and dies with an uncaught
`ZeroDivisionError` — no success report is printed. -/
theorem vacuum_zero_before_size_divides_by_zero :
    vacuum ⟨true, true, true, true, false, false, false, 0, 0⟩ =
      ([.purgeLog, .vacuumDb, .setConfig true], .zeroDivisionError) := by
  decide

/-- C3 counterexample: with a before-size of 100 and an after-size of 200
(the directory grew during maintenance), the command completes normally with
exit code 0 and silently prints the negative difference -100 in the success
report — there is no anomaly handling of any kind in the trace. -/
theorem vacuum_negative_diff_displayed_silently :
    vacuum ⟨true, true, true, true, false, false, false, 100, 200⟩ =
      ([.purgeLog, .vacuumDb, .setConfig true,
        .printComplete (-100) (-10000) 100], .exit 0) := by
  decide

/-- C3 (amended): every success report the command prints carries exactly
`(size before) - (size after)` as a signed integer, together with the
percentage numerator `diff * 100` and denominator `size before`; negative
values flow through unchanged. -/
theorem vacuum_reports_size_difference (env : VacuumEnv)
    (d n : Int) (m : Nat)
    (h : Event.printComplete d n m ∈ (vacuum env).1) :
    d = (env.sizeBefore : Int) - (env.sizeAfter : Int) ∧
    n = d * 100 ∧ m = env.sizeBefore := by
  cases hp : env.pathExists <;> cases hs : env.sqliteFileExists <;>
    cases hf : env.force <;> cases hc : env.userConfirms <;>
      cases h1 : env.purgeRaises <;> cases h2 : env.vacuumRaises <;>
        cases h3 : env.setConfigRaises <;> cases h0 : decide (env.sizeBefore = 0) <;>
          simp_all [vacuum]

/-- Witness for C3's amended theorem at a concrete environment. -/
theorem vacuum_reports_size_difference_witness :
    Event.printComplete 60 6000 100 ∈
      (vacuum ⟨true, true, true, true, false, false, false, 100, 40⟩).1 ∧
    ((60 : Int) = ((100 : Nat) : Int) - ((40 : Nat) : Int) ∧
     (6000 : Int) = 60 * 100 ∧ (100 : Nat) = (100 : Nat)) :=
  ⟨by decide,
   vacuum_reports_size_difference
     ⟨true, true, true, true, false, false, false, 100, 40⟩ 60 6000 100 (by decide)⟩

/-- C4: when the path does not exist, or exists without a `chroma.sqlite3`
file, the command exits with code 1 and no maintenance operation
(`purge_log`, `vacuum`, `set_config`) is ever invoked. -/
theorem vacuum_invalid_path_exits_one (env : VacuumEnv)
    (h : env.pathExists = false ∨ env.sqliteFileExists = false) :
    (vacuum env).2 = .exit 1 ∧
    Event.purgeLog ∉ (vacuum env).1 ∧
    Event.vacuumDb ∉ (vacuum env).1 ∧
    (∀ b, Event.setConfig b ∉ (vacuum env).1) := by
  rcases h with h | h <;>
    cases hp : env.pathExists <;> cases hs : env.sqliteFileExists <;>
      simp_all [vacuum]

/-- Witness for C4 at a concrete environment whose path is missing. -/
theorem vacuum_invalid_path_exits_one_witness :
    (vacuum ⟨false, true, true, true, false, false, false, 7, 7⟩).2 = .exit 1 ∧
    Event.purgeLog ∉ (vacuum ⟨false, true, true, true, false, false, false, 7, 7⟩).1 ∧
    Event.vacuumDb ∉ (vacuum ⟨false, true, true, true, false, false, false, 7, 7⟩).1 ∧
    (∀ b, Event.setConfig b ∉ (vacuum ⟨false, true, true, true, false, false, false, 7, 7⟩).1) :=
  vacuum_invalid_path_exits_one ⟨false, true, true, true, false, false, false, 7, 7⟩
    (Or.inl rfl)

/-- C5: on a recognized store directory, without `--force` the command
prompts for confirmation before anything else (the prompt is the very first
event of the run); if the user declines, it exits with code 0 and performs
no store mutation: no `purge_log`, no compaction, no config write. -/
theorem vacuum_decline_is_noop (env : VacuumEnv)
    (hp : env.pathExists = true) (hs : env.sqliteFileExists = true)
    (hf : env.force = false) :
    (vacuum env).1.head? = some .promptConfirm ∧
    (env.userConfirms = false →
      (vacuum env).2 = .exit 0 ∧
      Event.purgeLog ∉ (vacuum env).1 ∧
      Event.vacuumDb ∉ (vacuum env).1 ∧
      (∀ b, Event.setConfig b ∉ (vacuum env).1)) := by
  cases hc : env.userConfirms <;>
    cases h1 : env.purgeRaises <;> cases h2 : env.vacuumRaises <;>
      cases h3 : env.setConfigRaises <;> cases h0 : decide (env.sizeBefore = 0) <;>
        simp_all [vacuum]

/-- Witness for C5 at a concrete environment where the user declines. -/
theorem vacuum_decline_is_noop_witness :
    (vacuum ⟨true, true, false, false, false, false, false, 9, 9⟩).1.head? =
      some .promptConfirm ∧
    ((⟨true, true, false, false, false, false, false, 9, 9⟩ : VacuumEnv).userConfirms = false →
      (vacuum ⟨true, true, false, false, false, false, false, 9, 9⟩).2 = .exit 0 ∧
      Event.purgeLog ∉ (vacuum ⟨true, true, false, false, false, false, false, 9, 9⟩).1 ∧
      Event.vacuumDb ∉ (vacuum ⟨true, true, false, false, false, false, false, 9, 9⟩).1 ∧
      (∀ b, Event.setConfig b ∉
        (vacuum ⟨true, true, false, false, false, false, false, 9, 9⟩).1)) :=
  vacuum_decline_is_noop ⟨true, true, false, false, false, false, false, 9, 9⟩
    rfl rfl rfl

/-- C6: whenever the checks pass, the run is confirmed (forced or accepted)
and no operation raises, the trace contains the contiguous sequence
`purge_log`, then `vacuum`, then `set_config` with the automatically-prune
flag set to `true`, in that order, before the command completes. -/
theorem vacuum_maintenance_sequence (env : VacuumEnv)
    (hp : env.pathExists = true) (hs : env.sqliteFileExists = true)
    (hc : env.force = true ∨ env.userConfirms = true)
    (h1 : env.purgeRaises = false) (h2 : env.vacuumRaises = false)
    (h3 : env.setConfigRaises = false) :
    ∃ p s, (vacuum env).1 =
      p ++ Event.purgeLog :: Event.vacuumDb :: Event.setConfig true :: s := by
  rcases hc with hc | hc <;>
    cases hf : env.force <;> cases hu : env.userConfirms <;>
      cases h0 : decide (env.sizeBefore = 0) <;>
        simp_all [vacuum] <;>
          first
          | exact ⟨[], _, rfl⟩
          | exact ⟨[.promptConfirm], _, rfl⟩

/-- Witness for C6 at a concrete fully-successful environment. -/
theorem vacuum_maintenance_sequence_witness :
    ∃ p s, (vacuum ⟨true, true, true, true, false, false, false, 50, 20⟩).1 =
      p ++ Event.purgeLog :: Event.vacuumDb :: Event.setConfig true :: s :=
  vacuum_maintenance_sequence ⟨true, true, true, true, false, false, false, 50, 20⟩
    rfl rfl (Or.inl rfl) rfl rfl rfl

/-- C10: every invocation of `run` mutates the four process-wide environment
variables; every environment assignment precedes any server start in the
trace; and in test mode the command returns without starting the server but
with the environment already changed. -/
theorem run_mutates_environment (path host : String) (port : Nat) (test : Bool)
    (env : String → Option String) :
    applyEvents (run path host port test) env "IS_PERSISTENT" = some "True" ∧
    applyEvents (run path host port test) env "PERSIST_DIRECTORY" = some path ∧
    applyEvents (run path host port test) env "CHROMA_SERVER_NOFILE" = some "65535" ∧
    applyEvents (run path host port test) env "CHROMA_CLI" = some "True" ∧
    (∀ h p i, (run path host port test).get? i = some (.startServer h p) →
      ∀ j k v, (run path host port test).get? j = some (.setEnvVar k v) → j < i) ∧
    (test = true → ∀ h p, REvent.startServer h p ∉ run path host port test) := by
  cases test
  · refine ⟨by simp [run, applyEvents], by simp [run, applyEvents],
            by simp [run, applyEvents], by simp [run, applyEvents], ?_, ?_⟩
    · intro h p i hi j k v hj
      simp only [run, if_true, if_false, List.get?_eq_getElem?, List.cons_append,
                 List.nil_append, List.append_nil] at hi hj
      rcases i with _ | _ | _ | _ | _ | i <;>
        rcases j with _ | _ | _ | _ | _ | j <;>
          simp_all [List.getElem?_cons_zero, List.getElem?_cons_succ,
                    List.getElem?_nil]
    · intro ht
      exact absurd ht (by simp)
  · refine ⟨by simp [run, applyEvents], by simp [run, applyEvents],
            by simp [run, applyEvents], by simp [run, applyEvents], ?_, ?_⟩
    · intro h p i hi j k v hj
      simp only [run, if_true, if_false, List.get?_eq_getElem?, List.cons_append,
                 List.nil_append, List.append_nil] at hi hj
      rcases i with _ | _ | _ | _ | i <;>
        simp_all [List.getElem?_cons_zero, List.getElem?_cons_succ,
                  List.getElem?_nil]
    · intro _ h p
      simp [run]

/-- Witness for C10 in test mode on an initially empty environment. -/
theorem run_mutates_environment_witness :
    applyEvents (run "./chroma_data" "localhost" 8000 true)
      (fun _ => none) "IS_PERSISTENT" = some "True" ∧
    applyEvents (run "./chroma_data" "localhost" 8000 true)
      (fun _ => none) "PERSIST_DIRECTORY" = some "./chroma_data" ∧
    applyEvents (run "./chroma_data" "localhost" 8000 true)
      (fun _ => none) "CHROMA_SERVER_NOFILE" = some "65535" ∧
    applyEvents (run "./chroma_data" "localhost" 8000 true)
      (fun _ => none) "CHROMA_CLI" = some "True" ∧
    (∀ h p i, (run "./chroma_data" "localhost" 8000 true).get? i =
        some (.startServer h p) →
      ∀ j k v, (run "./chroma_data" "localhost" 8000 true).get? j =
        some (.setEnvVar k v) → j < i) ∧
    (true = true → ∀ h p,
      REvent.startServer h p ∉ run "./chroma_data" "localhost" 8000 true) :=
  run_mutates_environment "./chroma_data" "localhost" 8000 true (fun _ => none)

theorem strList?_map (ss : List String) : strList? (ss.map PyVal.str) = some ss := by
  induction ss with
  | nil => rfl
  | cons a t ih => simp [strList?, ih]

/-- C8: on a non-empty list of strings with no repeated values,
`validate_ids` succeeds and returns its input unchanged. -/
theorem validate_ids_nodup_returns_input (ss : List String)
    (hne : ss ≠ []) (hnd : ss.Nodup) :
    validate_ids (.list (ss.map PyVal.str)) = .ok (.list (ss.map PyVal.str)) := by
  have hdedup : ss.dedup = ss := List.dedup_eq_self.mpr hnd
  simp [validate_ids, hne, strList?_map, hdedup]

/-- Witness for C8 on three distinct IDs. -/
theorem validate_ids_nodup_returns_input_witness :
    validate_ids (.list (["id1", "id2", "id3"].map PyVal.str)) =
      .ok (.list (["id1", "id2", "id3"].map PyVal.str)) :=
  validate_ids_nodup_returns_input ["id1", "id2", "id3"] (by decide) (by decide)

/-- C7: on a list of strings containing at least one repeated value,
`validate_ids` fails with a DuplicateError-kind error whose reported
duplicate count is the sequence length minus the number of distinct
values. -/
theorem validate_ids_duplicates (ss : List String) (hdup : ¬ ss.Nodup) :
    validate_ids (.list (ss.map PyVal.str)) =
      .error (.duplicateError (dupIdsMessage (ss.length - ss.dedup.length))
        (ss.length - ss.dedup.length)) := by
  have hne : ss ≠ [] := by
    intro h
    exact hdup (h ▸ List.nodup_nil)
  have hlt : ss.dedup.length < ss.length := by
    rcases Nat.lt_or_ge ss.dedup.length ss.length with h | h
    · exact h
    · exfalso
      have hle : ss.dedup.length ≤ ss.length := (List.dedup_sublist ss).length_le
      have heq : ss.dedup = ss :=
        (List.dedup_sublist ss).eq_of_length (Nat.le_antisymm hle h)
      exact hdup (heq ▸ List.nodup_dedup ss)
  have hpos : ss.length - ss.dedup.length ≠ 0 := by omega
  simp [validate_ids, hne, strList?_map, hpos]

/-- Witness for C7 on the end-to-end example: 15 distinct IDs followed by 15
duplicates of the same set fail with a reported count of 15 and a message
saying "found 15 duplicated IDs". -/
theorem validate_ids_duplicates_witness :
    validate_ids (.list (idsTwice.map PyVal.str)) =
      .error (.duplicateError "Expected IDs to be unique, found 15 duplicated IDs" 15) := by
  rw [validate_ids_duplicates idsTwice (by decide)]
  rfl

theorem listList?_map (es : List (List PyVal)) :
    listList? (es.map PyVal.list) = some es := by
  induction es with
  | nil => rfl
  | cons a t ih => simp [listList?, ih]

theorem checkEmbeddingValues_non_numeric (es : List (List PyVal)) :
    es.all (fun e => !e.isEmpty) = true →
    es.any (fun e => e.any (fun x => !isNumber x)) = true →
    checkEmbeddingValues es =
      .error (.typeError "Expected each value in the embedding to be a int or float") := by
  induction es with
  | nil =>
    intro _ hbad
    simp at hbad
  | cons e rest ih =>
    intro hne hbad
    simp only [List.all_cons, Bool.and_eq_true] at hne
    obtain ⟨hne1, hne2⟩ := hne
    have hlen : e.length ≠ 0 := by
      cases e
      · simp at hne1
      · simp
    simp only [List.any_cons, Bool.or_eq_true] at hbad
    rcases hbad with hbad | hbad
    · have hall : e.all isNumber = false := by
        rcases List.any_eq_true.mp hbad with ⟨x, hx, hnx⟩
        have hxf : isNumber x = false := by simpa using hnx
        cases hall2 : e.all isNumber
        · rfl
        · have hx2 := List.all_eq_true.mp hall2 x hx
          rw [hxf] at hx2
          exact absurd hx2 (by simp)
      simp [checkEmbeddingValues, hlen, hall]
    · cases hall : e.all isNumber
      · simp [checkEmbeddingValues, hlen, hall]
      · simp only [checkEmbeddingValues, hlen, if_false, hall]
        simpa using ih hne2 hbad

/-- C9: on a list of non-empty inner lists of which at least one holds an
element that is not strictly an int or a float (a boolean, say),
`validate_embeddings` fails with a TypeError-kind error carrying the message
"Expected each value in the embedding to be a int or float". -/
theorem validate_embeddings_rejects_non_numeric (es : List (List PyVal))
    (hne : es.all (fun e => !e.isEmpty) = true)
    (hbad : es.any (fun e => e.any (fun x => !isNumber x)) = true) :
    validate_embeddings (.list (es.map PyVal.list)) =
      .error (.typeError "Expected each value in the embedding to be a int or float") := by
  simp [validate_embeddings, listList?_map,
        checkEmbeddingValues_non_numeric es hne hbad]

/-- Witness for C9 on the test's input `[[0, 0, True], [1.2, 2.24, 3.2]]`:
the boolean `True` is rejected even though it is integer-representable. -/
theorem validate_embeddings_rejects_non_numeric_witness :
    validate_embeddings (.list ([[.int 0, .int 0, .bool true],
        [.float 1.2, .float 2.24, .float 3.2]].map PyVal.list)) =
      .error (.typeError "Expected each value in the embedding to be a int or float") :=
  validate_embeddings_rejects_non_numeric
    [[.int 0, .int 0, .bool true], [.float 1.2, .float 2.24, .float 3.2]]
    (by decide) (by decide)

end Chroma
